import Mathlib

/-!
Shallow embedding of `cm_generation/cm_templates.py` (CrowdMaster's template
node evaluation).  Python floats are modelled as rationals and `mathutils`
vectors as triples of rationals.  Facilities that live outside the repository
(`mathutils.Euler` rotation of a vector, `math.sin` / `math.cos` /
`math.radians`, the float square root used by `Vector.length`, and BVH ray
casts) are passed to the embedded node functions as explicit function
parameters.  Python dict reference semantics are made explicit (with a small
heap of dictionary cells) exactly where a claim depends on aliasing.
-/

/-- A `mathutils.Vector` of length 3, with rational coordinates. -/
abbrev Vec3 : Type := ℚ × ℚ × ℚ

/-- Squared Euclidean length of a vector; `Vector.length` is its square root. -/
def Vec3.normSq (v : Vec3) : ℚ := v.1 * v.1 + v.2.1 * v.2.1 + v.2.2 * v.2.2

/-- A Python `dict` from strings to strings, as an insertion-ordered
association list (used for `tags` and `materials`). -/
abbrev Dict : Type := List (String × String)

/-- Python dict assignment `d[k] = v`: overwrite in place if the key exists,
otherwise append at the end (insertion order). -/
def dictSet (d : Dict) (k v : String) : Dict :=
  if d.any (fun p => p.1 = k) then d.map (fun p => if p.1 = k then (k, v) else p)
  else d ++ [(k, v)]

/-- The `TemplateRequest` value passed between `Template` nodes
(`cm_templates.py` lines 65-76).  The field `cmGroupsAttr` models the
dynamically created Python attribute `cm_groups` that
`TemplateADDTOGROUP.build` assigns (line 480); a fresh request does not have
that attribute, which we model as `none`. -/
structure TemplateRequest where
  pos : Vec3
  rot : Vec3
  scale : ℚ
  tags : Dict
  cm_group : String
  materials : Dict
  cmGroupsAttr : Option String
  deriving DecidableEq

/-- `TemplateRequest.__init__` (lines 68-76). -/
def TemplateRequest.init : TemplateRequest :=
  { pos := (0, 0, 0), rot := (0, 0, 0), scale := 1, tags := [],
    cm_group := "cm_allAgents", materials := [], cmGroupsAttr := none }

/-- `TemplateRequest.copy` (lines 78-86): a fresh request with the listed
fields copied over.  The dynamic `cm_groups` attribute is not among the
copied fields, so the copy does not carry it. -/
def TemplateRequest.copy (r : TemplateRequest) : TemplateRequest :=
  { pos := r.pos, rot := r.rot, scale := r.scale, tags := r.tags,
    cm_group := r.cm_group, materials := r.materials, cmGroupsAttr := none }

/-- `TemplateGROUND.build` (lines 985-1009).  `rayCast origin direction`
stands for `self.bvhtree.ray_cast` on the ground mesh, returning the hit
point and the hit distance, or `none` on a miss; `gndLocation` is
`gnd.location`.  The function returns the request forwarded to the
`"Template"` input, or `none` when the branch is dropped. -/
def TemplateGROUND.build (rayCast : Vec3 → Vec3 → Option (Vec3 × ℚ))
    (gndLocation : Vec3) (buildRequest : TemplateRequest) :
    Option TemplateRequest :=
  let point := buildRequest.pos - gndLocation
  match rayCast point (0, 0, -1), rayCast point (0, 0, 1) with
  | some (hitA, distA), some (hitB, distB) =>
    if distA ≤ distB then some { buildRequest with pos := hitA + gndLocation }
    else some { buildRequest with pos := hitB + gndLocation }
  | some (hitA, _), none => some { buildRequest with pos := hitA + gndLocation }
  | none, some (hitB, _) => some { buildRequest with pos := hitB + gndLocation }
  | none, none => none

/-- C6: the Ground node casts one ray straight down and one straight up from
the candidate position relative to the ground object's origin; if both rays
hit it forwards the request with its position replaced by the closer hit
translated back to world space, and if neither ray hits the request is
silently dropped. -/
theorem claim_C6_ground (rayCast : Vec3 → Vec3 → Option (Vec3 × ℚ))
    (gndLocation : Vec3) (buildRequest : TemplateRequest) :
    (∀ hitA distA hitB distB,
        rayCast (buildRequest.pos - gndLocation) (0, 0, -1) = some (hitA, distA) →
        rayCast (buildRequest.pos - gndLocation) (0, 0, 1) = some (hitB, distB) →
        TemplateGROUND.build rayCast gndLocation buildRequest =
          some { buildRequest with
                   pos := (if distA ≤ distB then hitA else hitB) + gndLocation }) ∧
    (rayCast (buildRequest.pos - gndLocation) (0, 0, -1) = none →
      rayCast (buildRequest.pos - gndLocation) (0, 0, 1) = none →
      TemplateGROUND.build rayCast gndLocation buildRequest = none) := by
  constructor
  · intro hitA distA hitB distB h1 h2
    simp only [TemplateGROUND.build, h1, h2]
    split <;> simp [*]
  · intro h1 h2
    simp [TemplateGROUND.build, h1, h2]

/-- C6 witness: a flat ground at z = 0 under a query at z = 5; the down cast
hits at distance 5, the up cast hits a fabricated ceiling at distance 7, and
the closer (down) hit is forwarded. -/
theorem claim_C6_ground_witness :
    TemplateGROUND.build
      (fun _ d => if d = ((0 : ℚ), (0 : ℚ), (-1 : ℚ))
        then some (((0 : ℚ), (0 : ℚ), (0 : ℚ)), 5)
        else some (((0 : ℚ), (0 : ℚ), (10 : ℚ)), 7))
      (0, 0, 0) { TemplateRequest.init with pos := (0, 0, 5) } =
      some { TemplateRequest.init with pos := (0, 0, 0) } := by
  have h := (claim_C6_ground
    (fun _ d => if d = ((0 : ℚ), (0 : ℚ), (-1 : ℚ))
      then some (((0 : ℚ), (0 : ℚ), (0 : ℚ)), 5)
      else some (((0 : ℚ), (0 : ℚ), (10 : ℚ)), 7))
    (0, 0, 0) { TemplateRequest.init with pos := (0, 0, 5) }).1
    (0, 0, 0) 5 (0, 0, 10) 7 (by decide) (by decide)
  rw [if_pos (by norm_num : (5 : ℚ) ≤ 7)] at h
  exact h.trans (by simp [TemplateRequest.init])

/-- An entry of the scene-wide group registry `scene.cm_groups`.  Only the
properties read by `TemplateADDTOGROUP.build` are modelled. -/
structure CmGroup where
  name : String
  freezePlacement : Bool
  groupType : String
  deriving DecidableEq

/-- Everything observable about one evaluation of `TemplateADDTOGROUP.build`:
the request forwarded to the `"Template"` input (`none` when the branch is
dropped), the group names for which `bpy.ops.scene.cm_groups_reset` was
invoked, and the registry afterwards. -/
structure AddToGroupOutcome where
  forwarded : Option TemplateRequest
  resets : List String
  groups : List CmGroup
  deriving DecidableEq

/-- `TemplateADDTOGROUP.build` (lines 465-481).  `scene.cm_groups.find`
returning `-1` is modelled by `List.find?` returning `none`.  The
`cm_groups_reset` operator lives outside this file's source, so its call is
recorded in `resets` and the registry is otherwise left as the source leaves
it: `scene.cm_groups.add()` appends a fresh entry whose `name` is then set
(new-entry defaults are external to the source and never read by the claims).
Note line 480 assigns the attribute `cm_groups` on the request — not the
`cm_group` field — which we model by setting `cmGroupsAttr`. -/
def TemplateADDTOGROUP.build (groupName : String) (groups : List CmGroup)
    (buildRequest : TemplateRequest) : AddToGroupOutcome :=
  match groups.find? (fun g => g.name = groupName) with
  | some group =>
    if group.groupType = "auto" then
      if group.freezePlacement then
        { forwarded := none, resets := [groupName], groups := groups }
      else
        { forwarded := some { buildRequest with cmGroupsAttr := some groupName },
          resets := [groupName],
          groups := groups ++ [{ name := groupName, freezePlacement := false,
                                 groupType := "auto" }] }
    else
      -- the `else: return` on line 475: any existing non-"auto" group drops
      -- the branch, frozen or not
      { forwarded := none, resets := [], groups := groups }
  | none =>
    { forwarded := some { buildRequest with cmGroupsAttr := some groupName },
      resets := [],
      groups := groups ++ [{ name := groupName, freezePlacement := false,
                             groupType := "auto" }] }

/-- C1: evaluating Add To Group with a group name that names no existing
group forwards a request whose `cm_group` field is unchanged
(`"cm_allAgents"`), because line 480 assigns the unused attribute
`cm_groups` instead of the field `cm_group`; the claim (and the class's own
docstring, "Change the group that agents are added to") say the forwarded
target group name should equal the configured `"g1"`. -/
theorem claim_C1_addToGroup_bug :
    ((TemplateADDTOGROUP.build "g1" [] TemplateRequest.init).forwarded.map
        (fun r => r.cm_group) = some "cm_allAgents") ∧
    ((TemplateADDTOGROUP.build "g1" [] TemplateRequest.init).forwarded.map
        (fun r => r.cmGroupsAttr) = some (some "g1")) ∧
    "cm_allAgents" ≠ "g1" := by
  refine ⟨rfl, rfl, by decide⟩

/-- C5 counterexample: an existing group of type `"manual"` that is not
frozen still drops the branch (line 475's unconditional `return`), so "the
branch is dropped if and only if the existing group is frozen" is false. -/
theorem claim_C5_counterexample :
    ((TemplateADDTOGROUP.build "g1"
        [{ name := "g1", freezePlacement := false, groupType := "manual" }]
        TemplateRequest.init).forwarded = none) ∧
    ({ name := "g1", freezePlacement := false, groupType := "manual" } :
        CmGroup).freezePlacement = false := by
  refine ⟨rfl, rfl⟩

/-- C5 (amended): when a group of the configured name already exists, the
branch is dropped iff that group is frozen or its type is not `"auto"`; a
reset of the group is issued (before anything else, in particular before the
frozen check) exactly when the existing group is of `"auto"` type. -/
theorem claim_C5_addToGroup_existing (groupName : String) (groups : List CmGroup)
    (buildRequest : TemplateRequest) (group : CmGroup)
    (hfind : groups.find? (fun g => g.name = groupName) = some group) :
    (((TemplateADDTOGROUP.build groupName groups buildRequest).forwarded = none) ↔
      (group.freezePlacement = true ∨ group.groupType ≠ "auto")) ∧
    ((TemplateADDTOGROUP.build groupName groups buildRequest).resets =
      if group.groupType = "auto" then [groupName] else []) := by
  unfold TemplateADDTOGROUP.build
  rw [hfind]
  by_cases hty : group.groupType = "auto" <;>
    cases hfr : group.freezePlacement <;>
    simp [hty, hfr]

/-- C5 witness: an existing frozen `"auto"` group is reset first and then
dropped. -/
theorem claim_C5_witness :
    (((TemplateADDTOGROUP.build "g2"
        [{ name := "g2", freezePlacement := true, groupType := "auto" }]
        TemplateRequest.init).forwarded = none) ↔
      ((true : Bool) = true ∨ ("auto" : String) ≠ "auto")) ∧
    ((TemplateADDTOGROUP.build "g2"
        [{ name := "g2", freezePlacement := true, groupType := "auto" }]
        TemplateRequest.init).resets =
      if ("auto" : String) = "auto" then ["g2"] else []) :=
  claim_C5_addToGroup_existing "g2"
    [{ name := "g2", freezePlacement := true, groupType := "auto" }]
    TemplateRequest.init
    { name := "g2", freezePlacement := true, groupType := "auto" }
    (by decide)

/-- The `GeoRequest` value passed between `GeoTemplate` nodes
(lines 111-129); `group` is the handle of the geometry group being filled. -/
structure GeoRequest where
  pos : Vec3
  rot : Vec3
  scale : ℚ
  tags : Dict
  cm_group : String
  group : Option Nat
  materials : Dict
  deferGeo : Bool
  deriving DecidableEq

/-- `GeoRequest.copy` (lines 119-129). -/
def GeoRequest.copy (r : GeoRequest) : GeoRequest :=
  { pos := r.pos, rot := r.rot, scale := r.scale, tags := r.tags,
    cm_group := r.cm_group, group := r.group, materials := r.materials,
    deferGeo := r.deferGeo }

/-- The `GeoReturn` value passed back by geo template nodes (lines 132-138);
object handles are opaque naturals owned by the Scene Backend. -/
structure GeoReturn where
  obj : Nat
  overwriteRig : Option Nat
  constrainBone : Option String
  modifyBones : List (String × String × String)
  deriving DecidableEq

/-- A `CHILD_OF` constraint created on a scene object (lines 439-443):
`child.constraints.new("CHILD_OF")` with its target object and subtarget
bone.  The bone's inverse bind matrix lives in the Scene Backend and is not
inspected by any claim. -/
structure ChildOfConstraint where
  childObj : Nat
  target : Nat
  subtarget : String
  deriving DecidableEq

/-- A geometry input's `build`: a `GeoRequest` and the current list of
scene constraints in, a `GeoReturn` and the possibly extended list out. -/
abbrev GeoBuildFn : Type :=
  GeoRequest → List ChildOfConstraint → GeoReturn × List ChildOfConstraint

/-- `GeoTemplatePARENT.build` (lines 434-446).  Both inputs receive
`buildRequest.copy()`; the local `gret` is rebound to the Child Object's
return before the `CHILD_OF` constraint (targeting the parent's object at
bone `parentTo`) is created, and that rebound value is what is returned. -/
def GeoTemplatePARENT.build (parentGroupInput childObjectInput : GeoBuildFn)
    (parentTo : String) (buildRequest : GeoRequest)
    (scene : List ChildOfConstraint) : GeoReturn × List ChildOfConstraint :=
  let pr := parentGroupInput buildRequest.copy scene
  let parent := pr.1.obj
  let cr := childObjectInput buildRequest.copy pr.2
  let child := cr.1.obj
  (cr.1, cr.2 ++ [{ childObj := child, target := parent, subtarget := parentTo }])

/-- A concrete "Parent Group" input used to refute C2: returns handle 1. -/
def geoParentInputEx : GeoBuildFn :=
  fun _ s => ({ obj := 1, overwriteRig := none, constrainBone := none,
                modifyBones := [] }, s)

/-- A concrete "Child Object" input used to refute C2: returns handle 2. -/
def geoChildInputEx : GeoBuildFn :=
  fun _ s => ({ obj := 2, overwriteRig := none, constrainBone := none,
                modifyBones := [] }, s)

/-- A plain geometry request used in concrete evaluations. -/
def geoRequestEx : GeoRequest :=
  { pos := (0, 0, 0), rot := (0, 0, 0), scale := 1, tags := [],
    cm_group := "cm_allAgents", group := none, materials := [],
    deferGeo := false }

/-- C2 counterexample: with a Parent Group input producing object handle 1
and a Child Object input producing handle 2, `GeoTemplatePARENT.build`
returns the Geometry Result with handle 2 — the Child Object's result, not
the Parent Group's — so the claim "returns the Geometry Result produced by
the Parent Group input" is false. -/
theorem claim_C2_counterexample :
    (GeoTemplatePARENT.build geoParentInputEx geoChildInputEx "Bone"
        geoRequestEx []).1 ≠
      (geoParentInputEx geoRequestEx.copy []).1 := by
  decide

/-- C2 (amended): `GeoTemplatePARENT.build` evaluates "Parent Group" and
then "Child Object" on independent copies of the request, appends a
`CHILD_OF` constraint attaching the child's object to bone `parentTo` of the
parent's object, and returns the Child Object's Geometry Result unchanged
(not the Parent Group's). -/
theorem claim_C2_parent (parentGroupInput childObjectInput : GeoBuildFn)
    (parentTo : String) (buildRequest : GeoRequest)
    (scene : List ChildOfConstraint) :
    (GeoTemplatePARENT.build parentGroupInput childObjectInput parentTo
        buildRequest scene).1 =
      (childObjectInput buildRequest.copy
        (parentGroupInput buildRequest.copy scene).2).1 ∧
    (GeoTemplatePARENT.build parentGroupInput childObjectInput parentTo
        buildRequest scene).2 =
      (childObjectInput buildRequest.copy
          (parentGroupInput buildRequest.copy scene).2).2 ++
        [{ childObj := (childObjectInput buildRequest.copy
              (parentGroupInput buildRequest.copy scene).2).1.obj,
           target := (parentGroupInput buildRequest.copy scene).1.obj,
           subtarget := parentTo }] :=
  ⟨rfl, rfl⟩

/-- The state a `Template` node instance carries across evaluations
(`Template.__init__`, lines 46-54); only `buildCount` is read by the
claims. -/
structure TemplateNode where
  buildCount : Nat
  deriving DecidableEq

/-- `Template.build` (lines 56-58): the abstract superclass method is the
only place `buildCount` is incremented. -/
def TemplateNode.build (self : TemplateNode) : TemplateNode :=
  { self with buildCount := self.buildCount + 1 }

/-- `TemplateSETTAG.build` (lines 1024-1026): sets one tag on the request
(dict assignment, overwriting any prior value) and forwards the same request
to the `"Template"` input.  The override does not call the superclass
method, so the node state — in particular `buildCount` — is untouched;
the returned pair is (node state after the call, request forwarded to the
child). -/
def TemplateSETTAG.build (tagName tagValue : String) (self : TemplateNode)
    (buildRequest : TemplateRequest) : TemplateNode × TemplateRequest :=
  (self, { buildRequest with tags := dictSet buildRequest.tags tagName tagValue })

/-- `TemplateSWITCH.build` (lines 574-578): one uniform draw decides the
branch; the request goes to `"Template 1"` iff `draw < switchAmout`.  The
override does not call the superclass method either; the returned pair is
(node state after the call, whether input `"Template 1"` was chosen). -/
def TemplateSWITCH.build (draw switchAmout : ℚ) (self : TemplateNode)
    : TemplateNode × Bool :=
  (self, decide (draw < switchAmout))

/-- C9 counterexample: evaluating a concrete Set Tag node with counter 0
leaves the counter at 0, not 1, so "every node's build call increments that
node's evaluation counter by exactly one, for every concrete node kind" is
false. -/
theorem claim_C9_counterexample :
    (TemplateSETTAG.build "tag" "value" { buildCount := 0 }
        TemplateRequest.init).1.buildCount ≠ 0 + 1 := by
  decide

/-- C9 (amended): only the abstract superclass `Template.build` increments
the evaluation counter; the concrete node kinds override `build` without
calling the superclass method, so their evaluations (here Set Tag and
Switch, the kinds the claim cites) leave the counter unchanged. -/
theorem claim_C9_buildCount (self : TemplateNode) (tagName tagValue : String)
    (buildRequest : TemplateRequest) (draw switchAmout : ℚ) :
    (TemplateNode.build self).buildCount = self.buildCount + 1 ∧
    (TemplateSETTAG.build tagName tagValue self buildRequest).1.buildCount =
      self.buildCount ∧
    (TemplateSWITCH.build draw switchAmout self).1.buildCount =
      self.buildCount :=
  ⟨rfl, rfl, rfl⟩

/-- The settings `TemplateRANDOMPOSITIONING.build` reads (lines 707-747).
`maxX`/`maxY` only bound the uniform draws, which are inputs here. -/
structure RandomPosSettings where
  locationType : String
  radius : ℚ
  direc : ℚ
  angle : ℚ
  deriving DecidableEq

/-- One iteration's random draws for `TemplateRANDOMPOSITIONING.build`:
`angle` is the uniform angle draw of the radius/sector branches, `len1` and
`len2` the two `random.random()` draws summed into the folded length, and
`x`/`y` the two uniform draws of the area branch. -/
structure RandomPosDraw where
  angle : ℚ
  len1 : ℚ
  len2 : ℚ
  x : ℚ
  y : ℚ
  deriving DecidableEq

/-- One candidate position of `TemplateRANDOMPOSITIONING.build`
(lines 709-747), per drawn values.  `sinFn`/`cosFn`/`radFn` stand for
`math.sin`/`math.cos`/`math.radians` on floats, and `rotFn eulerAngles v`
for `v.rotate(mathutils.Euler(eulerAngles))`.  An unrecognized
`locationType` appends no position (`none`). -/
def TemplateRANDOMPOSITIONING.candidate (sinFn cosFn radFn : ℚ → ℚ)
    (rotFn : Vec3 → Vec3 → Vec3) (s : RandomPosSettings)
    (buildRequest : TemplateRequest) (d : RandomPosDraw) : Option Vec3 :=
  if s.locationType = "radius" then
    let x := sinFn d.angle
    let y := cosFn d.angle
    let length0 := d.len1 + d.len2
    let length1 := if length0 > 1 then 2 - length0 else length0
    let length := length1 * s.radius
    let diff := (x * length, y * length, (0 : ℚ))
    some (buildRequest.pos + rotFn buildRequest.rot diff)
  else if s.locationType = "area" then
    let diff := (d.x, d.y, (0 : ℚ))
    some (buildRequest.pos + diff)
  else if s.locationType = "sector" then
    let ang := radFn (d.angle + s.direc)
    let x := sinFn ang
    let y := cosFn ang
    let length0 := d.len1 + d.len2
    let length1 := if length0 > 1 then 2 - length0 else length0
    let length := length1 * s.radius
    let diff := (x * length, y * length, (0 : ℚ))
    some (buildRequest.pos + rotFn buildRequest.rot diff)
  else none

/-- Modelled from the claim's words, for comparison with the source: the
same candidate generator but with every branch's offset rotated by the
request's rotation before being added to the request's position. -/
def TemplateRANDOMPOSITIONING.candidateSpec (sinFn cosFn radFn : ℚ → ℚ)
    (rotFn : Vec3 → Vec3 → Vec3) (s : RandomPosSettings)
    (buildRequest : TemplateRequest) (d : RandomPosDraw) : Option Vec3 :=
  if s.locationType = "radius" then
    let x := sinFn d.angle
    let y := cosFn d.angle
    let length0 := d.len1 + d.len2
    let length1 := if length0 > 1 then 2 - length0 else length0
    let length := length1 * s.radius
    let diff := (x * length, y * length, (0 : ℚ))
    some (buildRequest.pos + rotFn buildRequest.rot diff)
  else if s.locationType = "area" then
    let diff := (d.x, d.y, (0 : ℚ))
    some (buildRequest.pos + rotFn buildRequest.rot diff)
  else if s.locationType = "sector" then
    let ang := radFn (d.angle + s.direc)
    let x := sinFn ang
    let y := cosFn ang
    let length0 := d.len1 + d.len2
    let length1 := if length0 > 1 then 2 - length0 else length0
    let length := length1 * s.radius
    let diff := (x * length, y * length, (0 : ℚ))
    some (buildRequest.pos + rotFn buildRequest.rot diff)
  else none

/-- A concrete stand-in for rotation by Euler angles `(0, 0, π/2)`: a
quarter turn about the vertical axis whenever the angles are nonzero. -/
def quarterTurnRotFn : Vec3 → Vec3 → Vec3 :=
  fun eulerAngles v =>
    if eulerAngles = ((0 : ℚ), (0 : ℚ), (0 : ℚ)) then v else (-v.2.1, v.1, v.2.2)

/-- C4 counterexample: in `"area"` mode with the incoming rotation a quarter
turn about z and the drawn offset `(1, 0)`, the source adds the offset
without rotating it, so the generated candidate differs from the claim's
rotated candidate. -/
theorem claim_C4_counterexample :
    TemplateRANDOMPOSITIONING.candidate (fun q => q) (fun q => q) (fun q => q)
        quarterTurnRotFn
        { locationType := "area", radius := 1, direc := 0, angle := 0 }
        { TemplateRequest.init with rot := (0, 0, 1) }
        { angle := 0, len1 := 0, len2 := 0, x := 1, y := 0 } ≠
      TemplateRANDOMPOSITIONING.candidateSpec (fun q => q) (fun q => q)
        (fun q => q) quarterTurnRotFn
        { locationType := "area", radius := 1, direc := 0, angle := 0 }
        { TemplateRequest.init with rot := (0, 0, 1) }
        { angle := 0, len1 := 0, len2 := 0, x := 1, y := 0 } := by
  simp [TemplateRANDOMPOSITIONING.candidate,
    TemplateRANDOMPOSITIONING.candidateSpec, quarterTurnRotFn,
    TemplateRequest.init, Prod.ext_iff]

/-- C4 (amended): in the `"radius"` and `"sector"` modes each candidate
offset is rotated by the incoming request's rotation before being added to
the incoming position, but in `"area"` mode the offset is added without
being rotated. -/
theorem claim_C4_randomPositioning (sinFn cosFn radFn : ℚ → ℚ)
    (rotFn : Vec3 → Vec3 → Vec3) (s : RandomPosSettings)
    (buildRequest : TemplateRequest) (d : RandomPosDraw) :
    (s.locationType = "radius" ∨ s.locationType = "sector" →
      TemplateRANDOMPOSITIONING.candidate sinFn cosFn radFn rotFn s
          buildRequest d =
        TemplateRANDOMPOSITIONING.candidateSpec sinFn cosFn radFn rotFn s
          buildRequest d) ∧
    (s.locationType = "area" →
      TemplateRANDOMPOSITIONING.candidate sinFn cosFn radFn rotFn s
          buildRequest d =
        some (buildRequest.pos + (d.x, d.y, (0 : ℚ)))) := by
  constructor
  · rintro (h | h) <;>
      simp [TemplateRANDOMPOSITIONING.candidate,
        TemplateRANDOMPOSITIONING.candidateSpec, h]
  · intro h
    simp [TemplateRANDOMPOSITIONING.candidate, h]

/-- C4 witness: in `"radius"` mode at concrete draws the candidate agrees
with the fully rotated form. -/
theorem claim_C4_witness :
    TemplateRANDOMPOSITIONING.candidate (fun q => q) (fun q => q) (fun q => q)
        quarterTurnRotFn
        { locationType := "radius", radius := 1, direc := 0, angle := 0 }
        { TemplateRequest.init with rot := (0, 0, 1) }
        { angle := 0, len1 := 0, len2 := 0, x := 1, y := 0 } =
      TemplateRANDOMPOSITIONING.candidateSpec (fun q => q) (fun q => q)
        (fun q => q) quarterTurnRotFn
        { locationType := "radius", radius := 1, direc := 0, angle := 0 }
        { TemplateRequest.init with rot := (0, 0, 1) }
        { angle := 0, len1 := 0, len2 := 0, x := 1, y := 0 } :=
  (claim_C4_randomPositioning (fun q => q) (fun q => q) (fun q => q)
    quarterTurnRotFn
    { locationType := "radius", radius := 1, direc := 0, angle := 0 }
    { TemplateRequest.init with rot := (0, 0, 1) }
    { angle := 0, len1 := 0, len2 := 0, x := 1, y := 0 }).1 (Or.inl rfl)

/-- A heap of Python dict cells together with an allocator: `heap ref` is
the contents of the dict object at reference `ref`, and `next` is the next
unused reference. -/
structure HeapAlloc where
  heap : Nat → Dict
  next : Nat

/-- Allocate a fresh dict object holding `d`; returns its reference. -/
def heapAllocDict (a : HeapAlloc) (d : Dict) : Nat × HeapAlloc :=
  (a.next, { heap := fun m => if m = a.next then d else a.heap m,
             next := a.next + 1 })

/-- A `TemplateRequest` with Python reference semantics for its two dicts
made explicit: `tagsRef` and `materialsRef` are references into the heap. -/
structure RefRequest where
  pos : Vec3
  rot : Vec3
  scale : ℚ
  tagsRef : Nat
  materialsRef : Nat
  cm_group : String
  deriving DecidableEq

/-- `TemplateRequest.copy` (lines 78-86) at the reference level: scalars and
vectors are copied, and `self.tags.copy()` / `self.materials.copy()`
allocate fresh dict objects holding the same contents. -/
def RefRequest.copy (r : RefRequest) (a : HeapAlloc) : RefRequest × HeapAlloc :=
  let t := heapAllocDict a (a.heap r.tagsRef)
  let m := heapAllocDict t.2 (t.2.heap r.materialsRef)
  ({ r with tagsRef := t.1, materialsRef := m.1 }, m.2)

/-- `TemplateCOMBINE.build` (lines 698-701): one `buildRequest.copy()` per
input, in declared order; returns the per-branch requests handed to the
children.  The number of inputs is `n`. -/
def TemplateCOMBINE.build (buildRequest : RefRequest) :
    Nat → HeapAlloc → List RefRequest × HeapAlloc
  | 0, a => ([], a)
  | n + 1, a =>
    let c := RefRequest.copy buildRequest a
    let rest := TemplateCOMBINE.build buildRequest n c.2
    (c.1 :: rest.1, rest.2)

/-- A branch mutating its dict at `ref` (e.g. a downstream Set Tag doing
`buildRequest.tags[k] = v`): only the cell at `ref` changes. -/
def writeDict (h : Nat → Dict) (ref : Nat) (k v : String) : Nat → Dict :=
  fun m => if m = ref then dictSet (h m) k v else h m

theorem writeDict_ne (h : Nat → Dict) (ref ref' : Nat) (k v : String)
    (hne : ref' ≠ ref) : writeDict h ref k v ref' = h ref' := by
  simp [writeDict, hne]

/-- The fan-out of `TemplateCOMBINE.build` gives branch `i` the fresh dict
references `a.next + 2i` (tags) and `a.next + 2i + 1` (materials). -/
theorem TemplateCOMBINE.build_refs (buildRequest : RefRequest) :
    ∀ (n : Nat) (a : HeapAlloc),
      (TemplateCOMBINE.build buildRequest n a).1 =
        (List.range n).map (fun i =>
          { buildRequest with tagsRef := a.next + 2 * i,
                              materialsRef := a.next + 2 * i + 1 }) ∧
      (TemplateCOMBINE.build buildRequest n a).2.next = a.next + 2 * n := by
  intro n
  induction n with
  | zero => intro a; simp [TemplateCOMBINE.build]
  | succ n ih =>
    intro a
    have h := ih (RefRequest.copy buildRequest a).2
    have hcopy2 : (RefRequest.copy buildRequest a).2.next = a.next + 2 := by
      simp [RefRequest.copy, heapAllocDict]
    rw [hcopy2] at h
    constructor
    · show ((RefRequest.copy buildRequest a).1 ::
        (TemplateCOMBINE.build buildRequest n (RefRequest.copy buildRequest a).2).1) = _
      rw [h.1, List.range_succ_eq_map, List.map_cons, List.map_map]
      refine List.cons_eq_cons.2 ⟨?_, ?_⟩
      · simp [RefRequest.copy, heapAllocDict, RefRequest.mk.injEq]
      · apply List.map_congr_left
        intro i _
        simp only [Function.comp_apply, RefRequest.mk.injEq, and_true, true_and]
        omega
    · show (TemplateCOMBINE.build buildRequest n (RefRequest.copy buildRequest a).2).2.next = _
      rw [h.2]
      omega

/-- C3: each branch of a Combine fan-out receives a request whose tag dict
and material dict are fresh cells, distinct from every sibling's and from
the original's; hence a tag-map or material-map mutation performed through
one branch's request changes nothing a sibling branch (or the original
request) observes through its own references. -/
theorem claim_C3_combine_fanout (buildRequest : RefRequest) (a : HeapAlloc)
    (n : Nat) (hTags : buildRequest.tagsRef < a.next)
    (hMats : buildRequest.materialsRef < a.next) :
    ∀ (i j : Nat), i ≠ j →
    ∀ (bi bj : RefRequest),
      (TemplateCOMBINE.build buildRequest n a).1[i]? = some bi →
      (TemplateCOMBINE.build buildRequest n a).1[j]? = some bj →
    ∀ (k v : String),
      (writeDict (TemplateCOMBINE.build buildRequest n a).2.heap
          bi.tagsRef k v) bj.tagsRef =
        (TemplateCOMBINE.build buildRequest n a).2.heap bj.tagsRef ∧
      (writeDict (TemplateCOMBINE.build buildRequest n a).2.heap
          bi.tagsRef k v) bj.materialsRef =
        (TemplateCOMBINE.build buildRequest n a).2.heap bj.materialsRef ∧
      (writeDict (TemplateCOMBINE.build buildRequest n a).2.heap
          bi.materialsRef k v) bj.tagsRef =
        (TemplateCOMBINE.build buildRequest n a).2.heap bj.tagsRef ∧
      (writeDict (TemplateCOMBINE.build buildRequest n a).2.heap
          bi.materialsRef k v) bj.materialsRef =
        (TemplateCOMBINE.build buildRequest n a).2.heap bj.materialsRef ∧
      (writeDict (TemplateCOMBINE.build buildRequest n a).2.heap
          bi.tagsRef k v) buildRequest.tagsRef =
        (TemplateCOMBINE.build buildRequest n a).2.heap buildRequest.tagsRef ∧
      (writeDict (TemplateCOMBINE.build buildRequest n a).2.heap
          bi.materialsRef k v) buildRequest.materialsRef =
        (TemplateCOMBINE.build buildRequest n a).2.heap
          buildRequest.materialsRef := by
  intro i j hij bi bj hbi hbj k v
  rw [(TemplateCOMBINE.build_refs buildRequest n a).1] at hbi hbj
  rw [List.getElem?_map] at hbi hbj
  rcases Option.map_eq_some'.1 hbi with ⟨i', hi', hbi'⟩
  rcases Option.map_eq_some'.1 hbj with ⟨j', hj', hbj'⟩
  have hii : i' = i := by
    rcases List.getElem?_eq_some.1 hi' with ⟨hlt, hval⟩
    simp [List.getElem_range] at hval
    omega
  have hjj : j' = j := by
    rcases List.getElem?_eq_some.1 hj' with ⟨hlt, hval⟩
    simp [List.getElem_range] at hval
    omega
  subst hii hjj
  rw [← hbi', ← hbj']
  refine ⟨writeDict_ne _ _ _ _ _ (by simp; omega),
    writeDict_ne _ _ _ _ _ (by simp; omega),
    writeDict_ne _ _ _ _ _ (by simp; omega),
    writeDict_ne _ _ _ _ _ (by simp; omega),
    writeDict_ne _ _ _ _ _ (by simp; omega),
    writeDict_ne _ _ _ _ _ (by simp; omega)⟩

/-- A request whose dicts live at references 0 and 1. -/
def combineReqEx : RefRequest :=
  { pos := (0, 0, 0), rot := (0, 0, 0), scale := 1, tagsRef := 0,
    materialsRef := 1, cm_group := "cm_allAgents" }

/-- A heap with references 0 and 1 allocated (both empty dicts). -/
def combineAllocEx : HeapAlloc := { heap := fun _ => [], next := 2 }

/-- Branch 0 of the example fan-out: its dicts live at references 2 and 3. -/
def combineBranch0 : RefRequest :=
  { combineReqEx with tagsRef := 2, materialsRef := 3 }

/-- Branch 1 of the example fan-out: its dicts live at references 4 and 5. -/
def combineBranch1 : RefRequest :=
  { combineReqEx with tagsRef := 4, materialsRef := 5 }

/-- C3 witness: forking a concrete request to two inputs and writing a tag
through branch 0 leaves branch 1's tag dict unchanged. -/
theorem claim_C3_witness :
    (writeDict (TemplateCOMBINE.build combineReqEx 2 combineAllocEx).2.heap
        combineBranch0.tagsRef "tag" "value") combineBranch1.tagsRef =
      (TemplateCOMBINE.build combineReqEx 2 combineAllocEx).2.heap
        combineBranch1.tagsRef :=
  (claim_C3_combine_fanout combineReqEx combineAllocEx 2 (by decide) (by decide)
    0 1 (by decide) combineBranch0 combineBranch1 (by decide) (by decide)
    "tag" "value").1

/-- `kd.find_range(p, r)` over a snapshot of the position list: all entries
(with their indices) whose distance from `p` is at most `r`, the queried
point itself included.  Distance is compared by squares, which is equivalent
for the nonnegative radii the nodes use. -/
def findRange (snapshot : List Vec3) (p : Vec3) (r : ℚ) : List (Nat × Vec3) :=
  snapshot.enum.filter fun iq => Vec3.normSq (p - iq.2) ≤ r * r

/-- The loop of lines 758-761 (and 830-833): accumulate
`v * ((2 * radius - v.length) / v.length)` over every local point other
than the point itself.  `v.length` is `sqrtFn` of the squared norm;
a neighbor at distance zero makes Python raise `ZeroDivisionError`, which
is modelled as `none` (the true square root vanishes exactly on the zero
vector, so the test is on the squared norm). -/
def relaxAdjust (sqrtFn : ℚ → ℚ) (radius : ℚ) (n : Nat) (p : Vec3)
    (localPoints : List (Nat × Vec3)) : Option Vec3 :=
  localPoints.foldl
    (fun acc iq =>
      acc.bind fun adjust =>
        if iq.1 = n then some adjust
        else
          let v := p - iq.2
          if Vec3.normSq v = 0 then none
          else some (adjust +
            ((2 * radius - sqrtFn (Vec3.normSq v)) / sqrtFn (Vec3.normSq v)) • v))
    (some (0 : Vec3))

/-- Lines 756-763 (and 828-836) for a single point: gather the local points
within `radius * 2`, accumulate the corrective displacement, and — when any
local point exists — move the point by the displacement divided by the
number of local points. -/
def relaxPoint (sqrtFn : ℚ → ℚ) (radius : ℚ) (snapshot : List Vec3)
    (n : Nat) (p : Vec3) : Option Vec3 :=
  (relaxAdjust sqrtFn radius n p (findRange snapshot p (radius * 2))).map
    fun adjust =>
      if 0 < (findRange snapshot p (radius * 2)).length then
        p + (((findRange snapshot p (radius * 2)).length : ℚ))⁻¹ • adjust
      else p

/-- Sequential effectful traversal of a list, aborting on the first `none`
(Python's exception propagation). -/
def optionTraverse {α β : Type} (f : α → Option β) : List α → Option (List β)
  | [] => some []
  | x :: l => (f x).bind fun y => (optionTraverse f l).map fun ys => y :: ys

/-- One pass of the relaxation loop (lines 750-763): the k-d tree is built
from the list at the start of the pass, and each point is read before it is
overwritten, so the pass maps `relaxPoint` over the snapshot. -/
def relaxStep (sqrtFn : ℚ → ℚ) (radius : ℚ) (positions : List Vec3) :
    Option (List Vec3) :=
  optionTraverse (fun np => relaxPoint sqrtFn radius positions np.1 np.2)
    positions.enum

/-- The whole relaxation loop: exactly `k` passes, with a `ZeroDivisionError`
in any pass aborting the computation. -/
def relaxIterate (sqrtFn : ℚ → ℚ) (radius : ℚ) :
    Nat → List Vec3 → Option (List Vec3)
  | 0, positions => some positions
  | k + 1, positions =>
    (relaxStep sqrtFn radius positions).bind (relaxIterate sqrtFn radius k)

theorem Vec3.normSq_nonneg (v : Vec3) : 0 ≤ Vec3.normSq v := by
  have h1 := mul_self_nonneg v.1
  have h2 := mul_self_nonneg v.2.1
  have h3 := mul_self_nonneg v.2.2
  unfold Vec3.normSq
  linarith

theorem Vec3.normSq_eq_zero {v : Vec3} : Vec3.normSq v = 0 ↔ v = 0 := by
  constructor
  · intro h
    unfold Vec3.normSq at h
    have h1 := mul_self_nonneg v.1
    have h2 := mul_self_nonneg v.2.1
    have h3 := mul_self_nonneg v.2.2
    have e1 : v.1 * v.1 = 0 := le_antisymm (by linarith) h1
    have e2 : v.2.1 * v.2.1 = 0 := le_antisymm (by linarith) h2
    have e3 : v.2.2 * v.2.2 = 0 := le_antisymm (by linarith) h3
    have : v = (v.1, v.2.1, v.2.2) := rfl
    rw [this, mul_self_eq_zero.1 e1, mul_self_eq_zero.1 e2, mul_self_eq_zero.1 e3]
    rfl
  · intro h
    subst h
    unfold Vec3.normSq
    norm_num

/-- If every local point is the queried point itself, the accumulated
adjustment is the zero vector. -/
theorem relaxAdjust_self (sqrtFn : ℚ → ℚ) (radius : ℚ) (n : Nat) (p : Vec3)
    (localPoints : List (Nat × Vec3)) (h : ∀ iq ∈ localPoints, iq.1 = n) :
    relaxAdjust sqrtFn radius n p localPoints = some 0 := by
  unfold relaxAdjust
  induction localPoints with
  | nil => rfl
  | cons x l ih =>
    have hx : x.1 = n := h x (List.mem_cons_self x l)
    show List.foldl _ (Option.bind (some 0) _) l = some 0
    simp only [Option.bind, hx, if_pos]
    exact ih fun iq hiq => h iq (List.mem_cons_of_mem x hiq)

/-- If no local point other than the queried point sits at distance zero,
the accumulated adjustment is defined (no division by zero). -/
theorem relaxAdjust_isSome (sqrtFn : ℚ → ℚ) (radius : ℚ) (n : Nat) (p : Vec3)
    (localPoints : List (Nat × Vec3))
    (h : ∀ iq ∈ localPoints, iq.1 ≠ n → Vec3.normSq (p - iq.2) ≠ 0) :
    ∃ adjust, relaxAdjust sqrtFn radius n p localPoints = some adjust := by
  unfold relaxAdjust
  suffices hgen : ∀ (acc : Vec3), ∃ adjust,
      localPoints.foldl
        (fun acc iq =>
          acc.bind fun adjust =>
            if iq.1 = n then some adjust
            else
              let v := p - iq.2
              if Vec3.normSq v = 0 then none
              else some (adjust +
                ((2 * radius - sqrtFn (Vec3.normSq v)) / sqrtFn (Vec3.normSq v)) • v))
        (some acc) = some adjust by
    exact hgen 0
  induction localPoints with
  | nil => intro acc; exact ⟨acc, rfl⟩
  | cons x l ih =>
    intro acc
    by_cases hx : x.1 = n
    · simp only [List.foldl_cons, Option.bind, hx, if_pos]
      exact ih (fun iq hiq => h iq (List.mem_cons_of_mem x hiq)) acc
    · have hnz : Vec3.normSq (p - x.2) ≠ 0 := h x (List.mem_cons_self x l) hx
      simp only [List.foldl_cons, Option.bind, hx, if_neg, hnz, if_false]
      exact ih (fun iq hiq => h iq (List.mem_cons_of_mem x hiq)) _

/-- Pointwise traversal law: a function that is `some ∘ g` on every element
traverses to the mapped list. -/
theorem optionTraverse_eq_map {α β : Type} (f : α → Option β) (g : α → β) :
    ∀ (l : List α), (∀ x ∈ l, f x = some (g x)) →
      optionTraverse f l = some (l.map g)
  | [], _ => rfl
  | x :: l, h => by
    have hx : f x = some (g x) := h x (List.mem_cons_self x l)
    have hl := optionTraverse_eq_map f g l fun y hy =>
      h y (List.mem_cons_of_mem x hy)
    simp [optionTraverse, hx, hl]

/-- Pointwise traversal law: a function defined on every element traverses
to a defined list. -/
theorem optionTraverse_isSome {α β : Type} (f : α → Option β) :
    ∀ (l : List α), (∀ x ∈ l, ∃ y, f x = some y) →
      ∃ out, optionTraverse f l = some out
  | [], _ => ⟨[], rfl⟩
  | x :: l, h => by
    obtain ⟨y, hy⟩ := h x (List.mem_cons_self x l)
    obtain ⟨out, hout⟩ := optionTraverse_isSome f l fun z hz =>
      h z (List.mem_cons_of_mem x hz)
    exact ⟨y :: out, by simp [optionTraverse, hy, hout]⟩

/-- With radius 0 and no duplicate positions, the only local point of any
position is the position itself, so one relaxation of a point returns the
point unchanged. -/
theorem relaxPoint_nodup_radius_zero (sqrtFn : ℚ → ℚ) (positions : List Vec3)
    (hnd : positions.Nodup) (n : Nat) (hn : n < positions.length) :
    relaxPoint sqrtFn 0 positions n positions[n] = some positions[n] := by
  have hall : ∀ iq ∈ findRange positions positions[n] (0 * 2), iq.1 = n := by
    intro iq hiq
    rw [findRange, List.mem_filter] at hiq
    obtain ⟨hmem, hcond⟩ := hiq
    have hq : positions[iq.1]? = some iq.2 := List.mem_enum_iff_getElem?.1 hmem
    have hle : Vec3.normSq (positions[n] - iq.2) ≤ 0 := by
      have := of_decide_eq_true hcond
      simpa using this
    have hz : positions[n] - iq.2 = 0 :=
      Vec3.normSq_eq_zero.1 (le_antisymm hle (Vec3.normSq_nonneg _))
    obtain ⟨hlt, hval⟩ := List.getElem?_eq_some.1 hq
    have heq : positions[iq.1] = positions[n] := by
      rw [hval]
      exact (sub_eq_zero.1 hz).symm
    exact (List.Nodup.getElem_inj_iff hnd).1 heq
  have hself : (n, positions[n]) ∈ findRange positions positions[n] (0 * 2) := by
    rw [findRange, List.mem_filter]
    refine ⟨List.mem_enum_iff_getElem?.2 ?_, ?_⟩
    · exact List.getElem?_eq_getElem hn
    · simp [Vec3.normSq]
  have hlen : 0 < (findRange positions positions[n] (0 * 2)).length :=
    List.length_pos.2 (List.ne_nil_of_mem hself)
  unfold relaxPoint
  rw [relaxAdjust_self sqrtFn 0 n positions[n] _ hall]
  simp [hlen]

/-- With radius 0 and no duplicate positions, one whole relaxation pass is
the identity. -/
theorem relaxStep_nodup_radius_zero (sqrtFn : ℚ → ℚ) (positions : List Vec3)
    (hnd : positions.Nodup) :
    relaxStep sqrtFn 0 positions = some positions := by
  unfold relaxStep
  have h := optionTraverse_eq_map
    (fun np => relaxPoint sqrtFn 0 positions np.1 np.2) (fun np => np.2)
    positions.enum ?_
  · rw [h, List.enum_map_snd]
  · intro np hnp
    obtain ⟨hlt, hval⟩ :=
      List.getElem?_eq_some.1 (List.mem_enum_iff_getElem?.1 hnp)
    show relaxPoint sqrtFn 0 positions np.1 np.2 = some np.2
    rw [← hval]
    exact relaxPoint_nodup_radius_zero sqrtFn positions hnd np.1 hlt

/-- C8 (amended): for every position set with no duplicate positions, the
relaxation pass with radius 0 is the identity — any number of iterations
returns every position unchanged.  (With duplicate positions the pass
instead divides by zero; see the counterexample.) -/
theorem claim_C8_relax_zero_radius (sqrtFn : ℚ → ℚ) (k : Nat)
    (positions : List Vec3) (hnd : positions.Nodup) :
    relaxIterate sqrtFn 0 k positions = some positions := by
  induction k with
  | zero => rfl
  | succ k ih =>
    show (relaxStep sqrtFn 0 positions).bind (relaxIterate sqrtFn 0 k) = _
    rw [relaxStep_nodup_radius_zero sqrtFn positions hnd]
    exact ih

/-- C8 counterexample: a position set with two equal positions under
radius 0 raises `ZeroDivisionError` in the first pass (the duplicate is in
range at distance zero), so the claim's "for every position set, radius 0
leaves every position unchanged" is false. -/
theorem claim_C8_counterexample :
    relaxIterate (fun _ => 0) 0 1
        [((0 : ℚ), (0 : ℚ), (0 : ℚ)), ((0 : ℚ), (0 : ℚ), (0 : ℚ))] ≠
      some [((0 : ℚ), (0 : ℚ), (0 : ℚ)), ((0 : ℚ), (0 : ℚ), (0 : ℚ))] := by
  have hstep : relaxStep (fun _ => (0 : ℚ)) 0
      [((0 : ℚ), (0 : ℚ), (0 : ℚ)), ((0 : ℚ), (0 : ℚ), (0 : ℚ))] = none := by
    norm_num [relaxStep, optionTraverse, relaxPoint, relaxAdjust, findRange,
      List.enum, List.enumFrom, Vec3.normSq]
  show (relaxStep (fun _ => (0 : ℚ)) 0 _).bind _ ≠ _
  rw [hstep]
  simp

/-- C8 witness: two distinct positions, radius 0, two iterations: both
positions come back unchanged. -/
theorem claim_C8_witness :
    relaxIterate (fun _ => 0) 0 2
        [((0 : ℚ), (0 : ℚ), (0 : ℚ)), ((1 : ℚ), (0 : ℚ), (0 : ℚ))] =
      some [((0 : ℚ), (0 : ℚ), (0 : ℚ)), ((1 : ℚ), (0 : ℚ), (0 : ℚ))] :=
  claim_C8_relax_zero_radius (fun _ => 0) 2
    [((0 : ℚ), (0 : ℚ), (0 : ℚ)), ((1 : ℚ), (0 : ℚ), (0 : ℚ))] (by decide)

/-- C10: the corrective displacement divides by the distance to each
in-range neighbor, so (first conjunct) on any duplicate-free position set
every pass computes a defined displacement for every point — the denominator
is the length of a nonzero vector — while (second conjunct) a position set
with two equal positions and radius 1 divides by zero. -/
theorem claim_C10_relax_division :
    (∀ (sqrtFn : ℚ → ℚ) (radius : ℚ) (positions : List Vec3),
      positions.Nodup →
      ∃ out, relaxStep sqrtFn radius positions = some out) ∧
    relaxStep (fun _ => 0) 1
        [((0 : ℚ), (0 : ℚ), (0 : ℚ)), ((0 : ℚ), (0 : ℚ), (0 : ℚ))] = none := by
  constructor
  · intro sqrtFn radius positions hnd
    unfold relaxStep
    apply optionTraverse_isSome
    intro np hnp
    obtain ⟨hltn, hvaln⟩ :=
      List.getElem?_eq_some.1 (List.mem_enum_iff_getElem?.1 hnp)
    have hadj := relaxAdjust_isSome sqrtFn radius np.1 np.2
      (findRange positions np.2 (radius * 2)) ?_
    · obtain ⟨adjust, hadjust⟩ := hadj
      exact ⟨_, by unfold relaxPoint; rw [hadjust]; rfl⟩
    · intro iq hiq hne hz
      rw [findRange, List.mem_filter] at hiq
      obtain ⟨hlti, hvali⟩ :=
        List.getElem?_eq_some.1 (List.mem_enum_iff_getElem?.1 hiq.1)
      have heq : positions[np.1] = positions[iq.1] := by
        rw [hvaln, hvali]
        exact sub_eq_zero.1 (Vec3.normSq_eq_zero.1 hz)
      exact hne ((List.Nodup.getElem_inj_iff hnd).1 heq.symm)
  · norm_num [relaxStep, optionTraverse, relaxPoint, relaxAdjust, findRange,
      List.enum, List.enumFrom, Vec3.normSq]

/-- C10 witness: a concrete duplicate-free position set under radius 1 gets
a defined relaxation pass. -/
theorem claim_C10_witness :
    (relaxStep (fun q => q) 1
      [((0 : ℚ), (0 : ℚ), (0 : ℚ)), ((1 : ℚ), (0 : ℚ), (0 : ℚ))]).isSome =
      true := by
  obtain ⟨out, hout⟩ := claim_C10_relax_division.1 (fun q => q) 1
    [((0 : ℚ), (0 : ℚ), (0 : ℚ)), ((1 : ℚ), (0 : ℚ), (0 : ℚ))] (by decide)
  rw [hout]
  rfl

/-- `diffRow` of `TemplateFORMATION.build` (lines 860-864): the row margin
vector rotated into the request's orientation and scaled by its scale. -/
def TemplateFORMATION.diffRow (rotFn : Vec3 → Vec3 → Vec3)
    (buildRequest : TemplateRequest) (rowMargin : ℚ) : Vec3 :=
  buildRequest.scale • rotFn buildRequest.rot (rowMargin, 0, 0)

/-- `diffCol` of `TemplateFORMATION.build` (lines 861-865). -/
def TemplateFORMATION.diffCol (rotFn : Vec3 → Vec3 → Vec3)
    (buildRequest : TemplateRequest) (colMargin : ℚ) : Vec3 :=
  buildRequest.scale • rotFn buildRequest.rot (0, colMargin, 0)

/-- The positions emitted by `TemplateFORMATION.build` (lines 858-877), in
emission order: `number // rows` full columns of `rows` entries, then
`number % rows` leftover entries in one more column. -/
def TemplateFORMATION.positions (rotFn : Vec3 → Vec3 → Vec3)
    (rowMargin colMargin : ℚ) (number rows : Nat)
    (buildRequest : TemplateRequest) : List Vec3 :=
  (((List.range (number / rows)).map fun (fullcols : Nat) =>
      (List.range rows).map fun (row : Nat) =>
        buildRequest.pos +
          (fullcols : ℚ) • TemplateFORMATION.diffCol rotFn buildRequest colMargin +
          (row : ℚ) • TemplateFORMATION.diffRow rotFn buildRequest rowMargin).flatten)
  ++ ((List.range (number % rows)).map fun (leftOver : Nat) =>
      buildRequest.pos +
        ((number / rows : Nat) : ℚ) • TemplateFORMATION.diffCol rotFn buildRequest colMargin +
        (leftOver : ℚ) • TemplateFORMATION.diffRow rotFn buildRequest rowMargin)

/-- `TemplateFORMATION.build`: one copied request, with its position
replaced, is forwarded to the `"Template"` input per emitted position. -/
def TemplateFORMATION.build (rotFn : Vec3 → Vec3 → Vec3)
    (rowMargin colMargin : ℚ) (number rows : Nat)
    (buildRequest : TemplateRequest) : List TemplateRequest :=
  (TemplateFORMATION.positions rotFn rowMargin colMargin number rows
      buildRequest).map
    fun newPos => { buildRequest.copy with pos := newPos }

/-- The same positions grouped into columns (the claim's view of the grid):
column `c` holds the entries with that `diffCol` multiplier. -/
def TemplateFORMATION.columns (rotFn : Vec3 → Vec3 → Vec3)
    (rowMargin colMargin : ℚ) (number rows : Nat)
    (buildRequest : TemplateRequest) : List (List Vec3) :=
  (List.range (number / rows + if number % rows = 0 then 0 else 1)).map
    fun (c : Nat) =>
      (List.range (if c < number / rows then rows else number % rows)).map
        fun (r : Nat) =>
          buildRequest.pos +
            (c : ℚ) • TemplateFORMATION.diffCol rotFn buildRequest colMargin +
            (r : ℚ) • TemplateFORMATION.diffRow rotFn buildRequest rowMargin

theorem getElem?_range_map {β : Type} (g : Nat → β) (len j : Nat) (x : β)
    (h : ((List.range len).map g)[j]? = some x) : j < len ∧ x = g j := by
  rw [List.getElem?_map] at h
  rcases Option.map_eq_some'.1 h with ⟨j', hj', hx⟩
  obtain ⟨hlt, hval⟩ := List.getElem?_eq_some.1 hj'
  rw [List.getElem_range] at hval
  subst hval
  rw [List.length_range] at hlt
  exact ⟨hlt, hx.symm⟩

theorem sum_map_const_range (k c : Nat) :
    ((List.range k).map (fun _ => c)).sum = k * c := by
  induction k with
  | zero => simp
  | succ k ih =>
    rw [List.range_succ, List.map_append, List.sum_append]
    simp [ih, Nat.succ_mul]

theorem range_getLast? (m : Nat) :
    (List.range m).getLast? = if m = 0 then none else some (m - 1) := by
  cases m with
  | zero => rfl
  | succ m => rw [List.range_succ, List.getLast?_concat]; simp

theorem ceil_div_eq (N R : Nat) (hR : 0 < R) :
    N / R + (if N % R = 0 then 0 else 1) = (N + R - 1) / R := by
  by_cases h : N % R = 0
  · rw [h, if_pos rfl]
    have hq := Nat.div_add_mod N R
    have h1 : N + R - 1 = R * (N / R) + (R - 1) := by
      generalize hA : R * (N / R) = A at hq ⊢
      omega
    have h2 : (R - 1) / R = 0 := Nat.div_eq_of_lt (by omega)
    rw [h1, Nat.mul_add_div hR, h2]
  · rw [if_neg h]
    have hq := Nat.div_add_mod N R
    have hlt := Nat.mod_lt N hR
    have h1 : N + R - 1 = R * (N / R) + (N % R + R - 1) := by
      generalize hA : R * (N / R) = A at hq ⊢
      omega
    rw [h1, Nat.mul_add_div hR]
    have h2 : (N % R + R - 1) / R = 1 :=
      Nat.div_eq_of_lt_le (by omega) (by omega)
    rw [h2]

theorem vec_grid_row_step (p dc dr : Vec3) (c r : ℚ) :
    (p + c • dc + (r + 1) • dr) - (p + c • dc + r • dr) = dr := by
  rw [add_smul, one_smul]
  abel

theorem vec_grid_col_step (p dc dr : Vec3) (c r : ℚ) :
    (p + (c + 1) • dc + r • dr) - (p + c • dc + r • dr) = dc := by
  rw [add_smul, one_smul]
  abel

/-- C7: a Formation node with `noToPlace = number` and `ArrayRows = rows`
forwards exactly `number` requests; grouped into columns, there are
`⌈number / rows⌉` columns, the last column holds `number % rows` entries
(`rows` when `rows` divides `number`), and adjacent positions along a column
differ by the scaled-and-rotated row margin while adjacent positions across
columns differ by the scaled-and-rotated column margin. -/
theorem claim_C7_formation (rotFn : Vec3 → Vec3 → Vec3)
    (rowMargin colMargin : ℚ) (number rows : Nat)
    (buildRequest : TemplateRequest) (hrows : 0 < rows) :
    (TemplateFORMATION.columns rotFn rowMargin colMargin number rows
        buildRequest).flatten =
      TemplateFORMATION.positions rotFn rowMargin colMargin number rows
        buildRequest ∧
    (TemplateFORMATION.build rotFn rowMargin colMargin number rows
        buildRequest).length = number ∧
    (TemplateFORMATION.columns rotFn rowMargin colMargin number rows
        buildRequest).length = (number + rows - 1) / rows ∧
    (∀ lastCol,
      (TemplateFORMATION.columns rotFn rowMargin colMargin number rows
          buildRequest).getLast? = some lastCol →
      lastCol.length = if number % rows = 0 then rows else number % rows) ∧
    (∀ (i : Nat) (col : List Vec3) (j : Nat) (p q : Vec3),
      (TemplateFORMATION.columns rotFn rowMargin colMargin number rows
          buildRequest)[i]? = some col →
      col[j]? = some p → col[j + 1]? = some q →
      q - p = TemplateFORMATION.diffRow rotFn buildRequest rowMargin) ∧
    (∀ (i : Nat) (ci ci' : List Vec3) (j : Nat) (p q : Vec3),
      (TemplateFORMATION.columns rotFn rowMargin colMargin number rows
          buildRequest)[i]? = some ci →
      (TemplateFORMATION.columns rotFn rowMargin colMargin number rows
          buildRequest)[i + 1]? = some ci' →
      ci[j]? = some p → ci'[j]? = some q →
      q - p = TemplateFORMATION.diffCol rotFn buildRequest colMargin) := by
  refine ⟨?_, ?_, ?_, ?_, ?_, ?_⟩
  · -- the columns view flattens to the emitted positions
    by_cases hm : number % rows = 0
    · rw [TemplateFORMATION.columns, TemplateFORMATION.positions, hm]
      simp only [if_pos, Nat.add_zero, List.range_zero, List.map_nil,
        List.append_nil, reduceIte]
      congr 1
      apply List.map_congr_left
      intro c hc
      rw [if_pos (List.mem_range.1 hc)]
    · rw [TemplateFORMATION.columns, TemplateFORMATION.positions, if_neg hm,
        List.range_succ, List.map_append, List.flatten_append]
      congr 1
      · congr 1
        apply List.map_congr_left
        intro c hc
        rw [if_pos (List.mem_range.1 hc)]
      · simp [if_neg (Nat.lt_irrefl (number / rows))]
  · -- exactly `number` forwarded requests
    rw [TemplateFORMATION.build, List.length_map, TemplateFORMATION.positions,
      List.length_append, List.length_flatten, List.map_map]
    have hconst : (List.map (List.length ∘ fun (fullcols : Nat) =>
        (List.range rows).map fun (row : Nat) =>
          buildRequest.pos +
            (fullcols : ℚ) • TemplateFORMATION.diffCol rotFn buildRequest colMargin +
            (row : ℚ) • TemplateFORMATION.diffRow rotFn buildRequest rowMargin)
        (List.range (number / rows))) =
        (List.range (number / rows)).map (fun _ => rows) := by
      apply List.map_congr_left
      intro c _
      simp
    rw [hconst, sum_map_const_range, List.length_map, List.length_range,
      Nat.mul_comm]
    exact Nat.div_add_mod number rows
  · -- the number of columns is the ceiling of number / rows
    rw [TemplateFORMATION.columns, List.length_map, List.length_range]
    exact ceil_div_eq number rows hrows
  · -- the last column's size
    intro lastCol h
    rw [TemplateFORMATION.columns, List.getLast?_map, range_getLast?] at h
    by_cases hm : number % rows = 0
    · rw [if_pos hm] at h ⊢
      generalize hnd : number / rows = nd at h
      cases nd with
      | zero => simp at h
      | succ m =>
        rw [if_neg (by omega)] at h
        simp only [Option.map_some'] at h
        obtain rfl := Option.some.inj h
        rw [List.length_map, List.length_range, if_pos (by omega)]
    · rw [if_neg hm] at h ⊢
      generalize hnd : number / rows = nd at h
      rw [if_neg (by omega)] at h
      simp only [Option.map_some'] at h
      obtain rfl := Option.some.inj h
      rw [List.length_map, List.length_range, if_neg (by omega)]
  · -- within a column, consecutive entries differ by the row margin vector
    intro i col j p q hcol hp hq
    rw [TemplateFORMATION.columns] at hcol
    obtain ⟨hi, rfl⟩ := getElem?_range_map _ _ _ _ hcol
    obtain ⟨hj, rfl⟩ := getElem?_range_map _ _ _ _ hp
    obtain ⟨hj1, rfl⟩ := getElem?_range_map _ _ _ _ hq
    rw [Nat.cast_add, Nat.cast_one]
    exact vec_grid_row_step _ _ _ _ _
  · -- across columns, entries of the same row differ by the column margin
    intro i ci ci' j p q hci hci' hp hq
    rw [TemplateFORMATION.columns] at hci hci'
    obtain ⟨hi, rfl⟩ := getElem?_range_map _ _ _ _ hci
    obtain ⟨hi1, rfl⟩ := getElem?_range_map _ _ _ _ hci'
    obtain ⟨hj, rfl⟩ := getElem?_range_map _ _ _ _ hp
    obtain ⟨hj1, rfl⟩ := getElem?_range_map _ _ _ _ hq
    rw [Nat.cast_add, Nat.cast_one]
    exact vec_grid_col_step _ _ _ _ _

/-- C7 witness: a concrete formation (5 to place, 2 rows, identity rotation)
forwards exactly 5 requests. -/
theorem claim_C7_witness :
    (TemplateFORMATION.build (fun _ v => v) 1 1 5 2
        TemplateRequest.init).length = 5 :=
  (claim_C7_formation (fun _ v => v) 1 1 5 2 TemplateRequest.init
    (by decide)).2.1
